import Mathlib

/-!
Shallow embedding of `study_bot.py`: a Discord bot that classifies messages as
study-session proposals, extracts a date/time, and runs a yes/no confirmation
workflow that posts an announcement to a planning channel.

External libraries (`dateparser`, `datetime.strftime`, the Discord client) are
modelled as oracle parameters gathered in an `Env` structure; everything else
is translated directly from the source.
-/

namespace StudyBot

/-- `GENERAL_CHANNEL_ID` from the config section. -/
def GENERAL_CHANNEL_ID : Nat := 1437668461471072328

/-- `STUDY_CHANNEL_ID` from the config section. -/
def STUDY_CHANNEL_ID : Nat := 1441197907737837590

/-- `INTENT_KEYWORDS` list from the source. -/
def INTENT_KEYWORDS : List String :=
  ["study", "studying", "study together", "study group", "review", "go over",
   "look over", "practice", "run through", "go through", "session", "meet",
   "meet up", "link up", "group up"]

/-- `SCHEDULE_KEYWORDS` list from the source. -/
def SCHEDULE_KEYWORDS : List String :=
  ["today", "tomorrow", "tonight", "later", "this weekend", "weekend",
   "after class", "after lecture", "after lab", "this afternoon",
   "this evening", "morning", "afternoon", "evening", "night", "monday",
   "tuesday", "wednesday", "thursday", "friday", "saturday", "sunday"]

/-!
## The clock-time regular expression

`TIME_PATTERN = r"\b(\d{1,2}(:\d{2})?\s?(am|pm)|\d{1,2}:\d{2})\b"`

We implement Python `re.search` semantics for this one fixed pattern:
leftmost match, left alternative preferred, greedy quantifiers with
backtracking, ASCII character classes (the bot's keywords and tokens are
ASCII).  A match is reported as `some (i, j)`: the matched substring is the
half-open slice `[i, j)` of the character list.
-/

/-- ASCII `\d`. -/
def isDigitChar (c : Char) : Bool := decide ('0' ≤ c) && decide (c ≤ '9')

/-- ASCII `\w` (letters, digits, underscore). -/
def isWordChar (c : Char) : Bool := c.isAlphanum || c = '_'

/-- ASCII `\s`. -/
def isSpaceChar (c : Char) : Bool :=
  c = ' ' || c = '\t' || c = '\n' || c = '\r' || c = '\x0b' || c = '\x0c'

/-- Is there a `\d` at index `i`? -/
def digitAt (cs : List Char) (i : Nat) : Bool :=
  match cs.get? i with
  | some c => isDigitChar c
  | none => false

/-- Is the given character at index `i`? -/
def charAt (cs : List Char) (i : Nat) (c : Char) : Bool :=
  match cs.get? i with
  | some c2 => c2 = c
  | none => false

/-- Is there a `\s` at index `i`? -/
def spaceAt (cs : List Char) (i : Nat) : Bool :=
  match cs.get? i with
  | some c => isSpaceChar c
  | none => false

/-- Is there a `\w` at index `i`? -/
def wordAt (cs : List Char) (i : Nat) : Bool :=
  match cs.get? i with
  | some c => isWordChar c
  | none => false

/-- `\b` at the start of the match: the pattern begins with `\d` (a word
character), so the previous position must be absent or non-word. -/
def boundaryBefore (cs : List Char) (i : Nat) : Bool :=
  i = 0 || !wordAt cs (i - 1)

/-- `\b` at the end of the match: the pattern ends with a word character, so
position `j` must be past the end or non-word. -/
def boundaryAfter (cs : List Char) (j : Nat) : Bool :=
  !wordAt cs j

/-- `(am|pm)\b` starting at index `i`; returns the index just past `m`. -/
def ampmAt (cs : List Char) (i : Nat) : Option Nat :=
  if (charAt cs i 'a' || charAt cs i 'p') && charAt cs (i + 1) 'm'
      && boundaryAfter cs (i + 2) then
    some (i + 2)
  else
    none

/-- `\s?(am|pm)\b` starting at `p`; greedy, so the with-space branch is
tried first. -/
def afterSpOpt (cs : List Char) (p : Nat) : Option Nat :=
  (if spaceAt cs p then ampmAt cs (p + 1) else none) <|> ampmAt cs p

/-- `(:\d{2})?\s?(am|pm)\b` starting at `p`; greedy optional group. -/
def afterColonOpt (cs : List Char) (p : Nat) : Option Nat :=
  (if charAt cs p ':' && digitAt cs (p + 1) && digitAt cs (p + 2) then
     afterSpOpt cs (p + 3)
   else none)
  <|> afterSpOpt cs p

/-- First alternative `\d{1,2}(:\d{2})?\s?(am|pm)\b` at `i`; `\d{1,2}` is
greedy so two digits are tried before one. -/
def alt1At (cs : List Char) (i : Nat) : Option Nat :=
  (if digitAt cs i && digitAt cs (i + 1) then afterColonOpt cs (i + 2) else none)
  <|> (if digitAt cs i then afterColonOpt cs (i + 1) else none)

/-- Second alternative `\d{1,2}:\d{2}\b` at `i`; two digits tried first. -/
def alt2At (cs : List Char) (i : Nat) : Option Nat :=
  (if digitAt cs i && digitAt cs (i + 1) && charAt cs (i + 2) ':'
      && digitAt cs (i + 3) && digitAt cs (i + 4)
      && boundaryAfter cs (i + 5) then
    some (i + 5)
   else none)
  <|> (if digitAt cs i && charAt cs (i + 1) ':' && digitAt cs (i + 2)
          && digitAt cs (i + 3) && boundaryAfter cs (i + 4) then
        some (i + 4)
       else none)

/-- Try to match the whole pattern at position `i` (left alternative
preferred). -/
def matchTimeAt (cs : List Char) (i : Nat) : Option Nat :=
  if boundaryBefore cs i then alt1At cs i <|> alt2At cs i else none

/-- Scan positions `i, i+1, ...` (consuming `fuel`) for the leftmost match. -/
def timeSearchAux (cs : List Char) : Nat → Nat → Option (Nat × Nat)
  | _, 0 => none
  | i, fuel + 1 =>
    match matchTimeAt cs i with
    | some j => some (i, j)
    | none => timeSearchAux cs (i + 1) fuel

/-- `re.search(TIME_PATTERN, ·)`: leftmost match of the clock-time pattern,
as `some (start, end)`. -/
def timeSearch (cs : List Char) : Option (Nat × Nat) :=
  timeSearchAux cs 0 (cs.length + 1)

/-!
## Classifier: `looks_like_study_session`
-/

/-- Python `text.lower()`, as the character list of the lowered text
(character-wise lowering; the keywords and tokens involved are ASCII). -/
def lowerData (text : String) : List Char :=
  text.data.map Char.toLower

/-- Python `kw in lowered`: substring containment. -/
def strContains (hay : List Char) (kw : String) : Bool :=
  decide (kw.data <:+: hay)

/-- The `has_time` test both the classifier and the extractor fallback make:
`re.search(TIME_PATTERN, lowered) is not None`. -/
def has_time_token (lowered : List Char) : Bool :=
  (timeSearch lowered).isSome

/-- `looks_like_study_session` from the source. -/
def looks_like_study_session (text : String) : Bool :=
  let lowered := lowerData text
  let has_intent := INTENT_KEYWORDS.any (fun kw => strContains lowered kw)
  if !has_intent then
    false
  else
    let has_time := has_time_token lowered
    let has_schedule_word := SCHEDULE_KEYWORDS.any (fun kw => strContains lowered kw)
    has_time || has_schedule_word

/-!
## Date/Time Extractor: `parse_when`

The external `dateparser` library and `datetime.strftime` are modelled as
oracles in `Env`; instants are modelled at second resolution as seconds since
an epoch (`datetime.now()` is `Env.now`, `timedelta(days=1)` is
`secondsPerDay`).  `dateparser.parse(time_part)` is used by the source only
for its `.hour` and `.minute` fields, so its oracle returns an
(hour, minute) pair.
-/

/-- Environment of external effects and libraries. -/
structure Env where
  /-- `dateparser.parse(text, settings=...)` on the full text, as an instant. -/
  fullParse : String → Option Nat
  /-- `dateparser.parse(time_part)`, exposing `.hour` and `.minute`. -/
  timeParse : String → Option (Nat × Nat)
  /-- `datetime.now()`, in seconds since the epoch. -/
  now : Nat
  /-- `interaction.client.get_channel(id) is not None`. -/
  channelExists : Nat → Bool
  /-- `when_dt.strftime("%A, %B %d, %Y at %I:%M %p")`. -/
  fmtWhen : Nat → String

/-- One day, in seconds. -/
def secondsPerDay : Nat := 86400

/-- `now.replace(hour=h, minute=m, second=0, microsecond=0)`. -/
def replaceTime (now h m : Nat) : Nat :=
  (now / secondsPerDay) * secondsPerDay + h * 3600 + m * 60

/-- `m.group(0)`: the matched slice `[i, j)` of the lowered text. -/
def tokenOf (lowered : List Char) (i j : Nat) : String :=
  String.mk ((lowered.drop i).take (j - i))

/-- The tail of `parse_when` after the scan found a time token: parse just
the time-of-day and combine it with the current date, rolling forward one
day if that time already passed today. -/
def fallback_from_match (env : Env) (time_part : String) : Option Nat :=
  match env.timeParse time_part with
  | none => none
  | some (h, m) =>
    let dt := replaceTime env.now h m
    if dt ≤ env.now then some (dt + secondsPerDay) else some dt

/-- `parse_when` from the source. -/
def parse_when (env : Env) (text : String) : Option Nat :=
  match env.fullParse text with
  | some parsed => some parsed
  | none =>
    let lowered := lowerData text
    match timeSearch lowered with
    | none => none
    | some (i, j) => fallback_from_match env (tokenOf lowered i j)

/-!
## Confirmation workflow: `ConfirmStudyView`

The view's mutable state is the two buttons' `disabled` flags; a button
callback is a function from (environment, original message, state, clicking
user id) to (new state, list of outward effects in order).  The emoji
constants below reproduce the exact (mojibake) characters stored in the
source file.
-/

/-- `message.author`: identity plus its `.mention` rendering. -/
structure Author where
  id : Nat
  mention : String

/-- The originating message captured by `ConfirmStudyView.__init__`. -/
structure MessageRef where
  author : Author
  content : String

/-- The `disabled` flags of the Yes and No buttons. -/
structure ViewState where
  yesDisabled : Bool
  noDisabled : Bool
deriving DecidableEq

/-- Outward effects a button callback performs, in order. -/
inductive Effect where
  /-- `interaction.response.send_message(..., ephemeral=True)` or an
  ephemeral `interaction.followup.send`. -/
  | ephemeral (text : String)
  /-- `channel.send(text)` for the channel with the given id. -/
  | channelSend (channelId : Nat) (text : String)
  /-- `message.add_reaction(emoji)` on the announcement. -/
  | addReaction (emoji : String)
  /-- `interaction.message.edit(view=self)` with the new button flags. -/
  | editMessageView (newState : ViewState)
deriving DecidableEq

/-- The header emoji of the announcement, as stored in the source file. -/
def BOOKS_EMOJI : String := "üìö"

/-- The going reaction marker, as stored in the source file. -/
def GOING_EMOJI : String := "‚úÖ"

/-- The maybe reaction marker, as stored in the source file. -/
def MAYBE_EMOJI : String := "‚ùì"

/-- The not-going reaction marker, as stored in the source file. -/
def NOTGOING_EMOJI : String := "‚ùå"

/-- The f-string sent to the study channel, as a function of the pieces
interpolated into it. -/
def announcementText (mention content when_line : String) : String :=
  BOOKS_EMOJI ++ " **Proposed Study Session**\n" ++
  "**From:** " ++ mention ++ "\n" ++
  "**Details (original):** " ++ content ++ "\n" ++
  when_line ++ "\n" ++
  "React below to RSVP:\n" ++
  GOING_EMOJI ++ " Going   " ++ MAYBE_EMOJI ++ " Maybe   " ++
  NOTGOING_EMOJI ++ " Not going"

/-- `ConfirmStudyView.yes_button`. -/
def yes_button (env : Env) (original : MessageRef) (st : ViewState)
    (clickerId : Nat) : ViewState × List Effect :=
  if clickerId ≠ original.author.id then
    (st, [.ephemeral "Only the person who wrote the message can confirm this."])
  else
    let ack : Effect := .ephemeral "Got it. Posting this in #study-group-planning."
    if !env.channelExists STUDY_CHANNEL_ID then
      (st, [ack, .ephemeral "I could not find the study group channel."])
    else
      let author := original.author
      let content := original.content
      let when_dt := parse_when env content
      let when_line :=
        match when_dt with
        | some dt => "**When:** " ++ env.fmtWhen dt ++ " (ET)\n"
        | none => ""
      let st2 : ViewState := ⟨true, true⟩
      (st2,
       [ack,
        .channelSend STUDY_CHANNEL_ID (announcementText author.mention content when_line),
        .addReaction GOING_EMOJI,
        .addReaction MAYBE_EMOJI,
        .addReaction NOTGOING_EMOJI,
        .editMessageView st2])

/-- `ConfirmStudyView.no_button`.  Its body consults no external state: it
takes the environment only to make that independence statable. -/
def no_button (_env : Env) (original : MessageRef) (st : ViewState)
    (clickerId : Nat) : ViewState × List Effect :=
  if clickerId ≠ original.author.id then
    (st, [.ephemeral "Only the person who wrote the message can respond."])
  else
    let st2 : ViewState := ⟨true, true⟩
    (st2,
     [.ephemeral "No problem. I will ignore that message.",
      .editMessageView st2])

/-!
## Message Router: `on_message`
-/

/-- Fields of an inbound message the router consumes. -/
structure InboundMessage where
  authorIsBot : Bool
  channelId : Nat
  content : String

/-- Effects of the router, in order. -/
inductive RouterEffect where
  /-- `bot.process_commands(message)`. -/
  | processCommands
  /-- `message.reply(text, view=ConfirmStudyView(message))`. -/
  | replyWithConfirmView (text : String)
deriving DecidableEq

/-- The fixed prompt text of the confirmation reply. -/
def promptText : String :=
  "I noticed you might be trying to set up a study session.\n" ++
  "Do you want me to post this in #study-group-planning?"

/-- `on_message` from the source. -/
def on_message (msg : InboundMessage) : List RouterEffect :=
  [.processCommands] ++
  (if msg.authorIsBot then []
   else if msg.channelId ≠ GENERAL_CHANNEL_ID then []
   else if looks_like_study_session msg.content then
     [.replyWithConfirmView promptText]
   else [])

/-!
## Sample values used in closed instances of the theorems
-/

/-- A sample environment: full-text parsing finds nothing, the time-of-day
oracle knows the token `5pm`, and the planning channel exists. -/
def sampleEnv : Env where
  fullParse := fun _ => none
  timeParse := fun s => if s = "5pm" then some (17, 0) else none
  now := 1700000000
  channelExists := fun _ => true
  fmtWhen := fun _ => "Friday, November 21, 2025 at 04:00 PM"

/-- `sampleEnv` with the planning-channel lookup failing. -/
def sampleEnvNoChannel : Env :=
  { sampleEnv with channelExists := fun _ => false }

/-- A sample author. -/
def sampleAuthor : Author := ⟨42, "<@42>"⟩

/-- A sample originating message. -/
def sampleMessage : MessageRef := ⟨sampleAuthor, "see you at 5pm"⟩

/-- Both buttons enabled: the initial view state. -/
def bothEnabled : ViewState := ⟨false, false⟩

/-- A sample inbound message whose author is a bot. -/
def botMessage : InboundMessage := ⟨true, GENERAL_CHANNEL_ID, "study at 4pm"⟩

/-!
## Theorems
-/

/-- C1: the Classifier returns true iff the lowercased text contains an
intent keyword and additionally a clock-time match or a schedule keyword;
in particular, no intent keyword forces false. -/
theorem classifier_iff (text : String) :
    looks_like_study_session text = true ↔
      ((∃ kw ∈ INTENT_KEYWORDS, kw.data <:+: lowerData text) ∧
       ((timeSearch (lowerData text)).isSome = true ∨
        ∃ kw ∈ SCHEDULE_KEYWORDS, kw.data <:+: lowerData text)) := by
  have h1 : ∀ l : List String, (l.any fun kw => strContains (lowerData text) kw) = true ↔
      ∃ kw ∈ l, kw.data <:+: lowerData text := by
    intro l
    simp [strContains, List.any_eq_true]
  simp only [looks_like_study_session, has_time_token]
  by_cases hI : (INTENT_KEYWORDS.any fun kw => strContains (lowerData text) kw) = true
  · rw [if_neg (by simp [hI]), Bool.or_eq_true, h1 SCHEDULE_KEYWORDS]
    exact ⟨fun h => ⟨(h1 _).1 hI, h⟩, fun h => h.2⟩
  · rw [if_pos (by simp [Bool.not_eq_true] at hI ⊢; exact hI)]
    constructor
    · intro h
      simp at h
    · intro h
      exact absurd ((h1 _).2 h.1) hI

/-- C2: a click on either button by an identity other than the original
author's only sends a private rejection notice: the view state is unchanged
and no announcement is sent to any channel. -/
theorem unauthorized_click_rejected (env env2 : Env) (original : MessageRef)
    (st : ViewState) (clickerId : Nat) (h : clickerId ≠ original.author.id) :
    yes_button env original st clickerId =
      (st, [Effect.ephemeral "Only the person who wrote the message can confirm this."]) ∧
    no_button env2 original st clickerId =
      (st, [Effect.ephemeral "Only the person who wrote the message can respond."]) ∧
    (∀ ch t, Effect.channelSend ch t ∉ (yes_button env original st clickerId).2 ∧
             Effect.channelSend ch t ∉ (no_button env2 original st clickerId).2) := by
  refine ⟨?_, ?_, ?_⟩ <;> simp [yes_button, no_button, h]

/-- C2 witness: a concrete non-author click. -/
theorem unauthorized_click_rejected_witness :
    yes_button sampleEnv sampleMessage bothEnabled 99 =
      (bothEnabled, [Effect.ephemeral "Only the person who wrote the message can confirm this."]) ∧
    no_button sampleEnv sampleMessage bothEnabled 99 =
      (bothEnabled, [Effect.ephemeral "Only the person who wrote the message can respond."]) ∧
    (∀ ch t, Effect.channelSend ch t ∉ (yes_button sampleEnv sampleMessage bothEnabled 99).2 ∧
             Effect.channelSend ch t ∉ (no_button sampleEnv sampleMessage bothEnabled 99).2) :=
  unauthorized_click_rejected sampleEnv sampleEnv sampleMessage bothEnabled 99 (by decide)

/-- C6: a decline-click by the original author sends a private
acknowledgment, disables both controls, sends no channel message, and
consults nothing external (the result is independent of the environment). -/
theorem valid_decline_acknowledges (env env2 : Env) (original : MessageRef)
    (st : ViewState) :
    no_button env original st original.author.id =
      (⟨true, true⟩,
       [Effect.ephemeral "No problem. I will ignore that message.",
        Effect.editMessageView ⟨true, true⟩]) ∧
    (∀ ch t, Effect.channelSend ch t ∉ (no_button env original st original.author.id).2) ∧
    no_button env original st original.author.id =
      no_button env2 original st original.author.id := by
  refine ⟨?_, ?_, rfl⟩ <;> simp [no_button]

/-- C7: when the full-text parse yields nothing and the lowered text has no
clock-time match, `parse_when` returns `none`. -/
theorem extractor_no_time_none (env : Env) (text : String)
    (h1 : env.fullParse text = none)
    (h2 : timeSearch (lowerData text) = none) :
    parse_when env text = none := by
  simp [parse_when, h1, h2]

/-- C7 witness: a concrete text with no time token. -/
theorem extractor_no_time_none_witness :
    sampleEnv.fullParse "lets study sometime" = none ∧
    timeSearch (lowerData "lets study sometime") = none ∧
    parse_when sampleEnv "lets study sometime" = none :=
  ⟨rfl, by decide,
   extractor_no_time_none sampleEnv "lets study sometime" rfl (by decide)⟩

/-- C9: the extractor is deterministic: two runs on the same text at the
same reference instant (same environment) return the same result. -/
theorem extractor_idempotent (env : Env) (text : String) (r1 r2 : Option Nat)
    (h1 : r1 = parse_when env text) (h2 : r2 = parse_when env text) :
    r1 = r2 :=
  h1.trans h2.symm

/-- C9 witness: two runs on a concrete text and environment. -/
theorem extractor_idempotent_witness :
    parse_when sampleEnv "see you at 5pm" = parse_when sampleEnv "see you at 5pm" :=
  extractor_idempotent sampleEnv "see you at 5pm" _ _ rfl rfl

/-- C8: the router always dispatches to command processing first, and a bot
author, a foreign channel, or a negative classification leaves command
processing as the only effect: no reply, no confirmation view. -/
theorem router_gates (msg : InboundMessage) :
    (on_message msg).head? = some RouterEffect.processCommands ∧
    (msg.authorIsBot = true ∨ msg.channelId ≠ GENERAL_CHANNEL_ID ∨
        looks_like_study_session msg.content = false →
      on_message msg = [RouterEffect.processCommands]) := by
  constructor
  · rfl
  · rintro (h | h | h) <;> simp [on_message, h]

/-- C8 witness: a concrete message from a bot author. -/
theorem router_gates_witness :
    (on_message botMessage).head? = some RouterEffect.processCommands ∧
    on_message botMessage = [RouterEffect.processCommands] :=
  ⟨(router_gates botMessage).1, (router_gates botMessage).2 (Or.inl rfl)⟩

/-- The interpolated mention occurs in the announcement text. -/
theorem mention_infix_announcement (a c w : String) :
    a.data <:+: (announcementText a c w).data :=
  ⟨(BOOKS_EMOJI ++ " **Proposed Study Session**\n" ++ "**From:** ").data,
   ("\n" ++ "**Details (original):** " ++ c ++ "\n" ++ w ++ "\n" ++
    "React below to RSVP:\n" ++ GOING_EMOJI ++ " Going   " ++ MAYBE_EMOJI ++
    " Maybe   " ++ NOTGOING_EMOJI ++ " Not going").data,
   by simp [announcementText, String.data_append, List.append_assoc]⟩

/-- The interpolated original content occurs in the announcement text. -/
theorem content_infix_announcement (a c w : String) :
    c.data <:+: (announcementText a c w).data :=
  ⟨(BOOKS_EMOJI ++ " **Proposed Study Session**\n" ++ "**From:** " ++ a ++
    "\n" ++ "**Details (original):** ").data,
   ("\n" ++ w ++ "\n" ++ "React below to RSVP:\n" ++ GOING_EMOJI ++
    " Going   " ++ MAYBE_EMOJI ++ " Maybe   " ++ NOTGOING_EMOJI ++
    " Not going").data,
   by simp [announcementText, String.data_append, List.append_assoc]⟩

/-- C3: an accept-click by the original author with the planning channel
found posts the announcement (containing the author mention, the original
text, and a when-line exactly when the extractor returns a time), then adds
the three reaction markers in order going, maybe, not-going, then disables
both controls. -/
theorem valid_accept_announces (env : Env) (original : MessageRef)
    (st : ViewState) (hch : env.channelExists STUDY_CHANNEL_ID = true) :
    ∃ when_line,
      yes_button env original st original.author.id =
        (⟨true, true⟩,
         [Effect.ephemeral "Got it. Posting this in #study-group-planning.",
          Effect.channelSend STUDY_CHANNEL_ID
            (announcementText original.author.mention original.content when_line),
          Effect.addReaction GOING_EMOJI,
          Effect.addReaction MAYBE_EMOJI,
          Effect.addReaction NOTGOING_EMOJI,
          Effect.editMessageView ⟨true, true⟩]) ∧
      original.author.mention.data <:+:
        (announcementText original.author.mention original.content when_line).data ∧
      original.content.data <:+:
        (announcementText original.author.mention original.content when_line).data ∧
      ((∃ dt, parse_when env original.content = some dt ∧
          when_line = "**When:** " ++ env.fmtWhen dt ++ " (ET)\n") ∨
       (parse_when env original.content = none ∧ when_line = "")) := by
  rcases hp : parse_when env original.content with _ | dt
  · exact ⟨"", by simp [yes_button, hch, hp],
      mention_infix_announcement _ _ _, content_infix_announcement _ _ _,
      Or.inr ⟨rfl, rfl⟩⟩
  · exact ⟨"**When:** " ++ env.fmtWhen dt ++ " (ET)\n",
      by simp [yes_button, hch, hp],
      mention_infix_announcement _ _ _, content_infix_announcement _ _ _,
      Or.inl ⟨dt, rfl, rfl⟩⟩

/-- C3 witness: a concrete valid accept with the channel present. -/
theorem valid_accept_announces_witness :
    ∃ when_line,
      yes_button sampleEnv sampleMessage bothEnabled sampleMessage.author.id =
        (⟨true, true⟩,
         [Effect.ephemeral "Got it. Posting this in #study-group-planning.",
          Effect.channelSend STUDY_CHANNEL_ID
            (announcementText sampleMessage.author.mention sampleMessage.content when_line),
          Effect.addReaction GOING_EMOJI,
          Effect.addReaction MAYBE_EMOJI,
          Effect.addReaction NOTGOING_EMOJI,
          Effect.editMessageView ⟨true, true⟩]) ∧
      sampleMessage.author.mention.data <:+:
        (announcementText sampleMessage.author.mention sampleMessage.content when_line).data ∧
      sampleMessage.content.data <:+:
        (announcementText sampleMessage.author.mention sampleMessage.content when_line).data ∧
      ((∃ dt, parse_when sampleEnv sampleMessage.content = some dt ∧
          when_line = "**When:** " ++ sampleEnv.fmtWhen dt ++ " (ET)\n") ∨
       (parse_when sampleEnv sampleMessage.content = none ∧ when_line = "")) :=
  valid_accept_announces sampleEnv sampleMessage bothEnabled rfl

/-- C4 counterexample: with the planning channel missing, a valid
accept-click leaves both controls enabled and performs no view edit — the
workflow is not marked resolved, contrary to the claim. -/
theorem accept_channel_missing_counterexample :
    yes_button sampleEnvNoChannel sampleMessage bothEnabled 42 =
      (bothEnabled,
       [Effect.ephemeral "Got it. Posting this in #study-group-planning.",
        Effect.ephemeral "I could not find the study group channel."]) ∧
    bothEnabled.yesDisabled = false ∧ bothEnabled.noDisabled = false := by
  refine ⟨?_, rfl, rfl⟩
  decide

/-- C4 amended: a valid accept-click with the planning channel missing sends
the private acknowledgment and then a private error notice, posts no
announcement, does not retry, and returns with the view state unchanged —
the controls are not disabled (the handler returns before the disabling
step). -/
theorem accept_channel_missing_stops (env : Env) (original : MessageRef)
    (st : ViewState) (hch : env.channelExists STUDY_CHANNEL_ID = false) :
    yes_button env original st original.author.id =
      (st, [Effect.ephemeral "Got it. Posting this in #study-group-planning.",
            Effect.ephemeral "I could not find the study group channel."]) ∧
    (∀ ch t, Effect.channelSend ch t ∉
        (yes_button env original st original.author.id).2) := by
  constructor <;> simp [yes_button, hch]

/-- C4 amended witness: a concrete valid accept with the channel missing. -/
theorem accept_channel_missing_stops_witness :
    yes_button sampleEnvNoChannel sampleMessage bothEnabled sampleMessage.author.id =
      (bothEnabled,
       [Effect.ephemeral "Got it. Posting this in #study-group-planning.",
        Effect.ephemeral "I could not find the study group channel."]) ∧
    (∀ ch t, Effect.channelSend ch t ∉
        (yes_button sampleEnvNoChannel sampleMessage bothEnabled sampleMessage.author.id).2) :=
  accept_channel_missing_stops sampleEnvNoChannel sampleMessage bothEnabled rfl

/-- C5: when the full parse yields nothing but the scan finds a time token
that parses to a valid time-of-day, the extractor returns an instant with
that time-of-day, dated today when the time-of-day is still strictly ahead
at the reference instant and tomorrow otherwise; the result is strictly
after the reference instant. -/
theorem extractor_fallback_future (env : Env) (text : String) (i j hh mm : Nat)
    (h1 : env.fullParse text = none)
    (h2 : timeSearch (lowerData text) = some (i, j))
    (h3 : env.timeParse (tokenOf (lowerData text) i j) = some (hh, mm))
    (hH : hh < 24) (hM : mm < 60) :
    ∃ r, parse_when env text = some r ∧
      r % secondsPerDay = hh * 3600 + mm * 60 ∧
      (env.now % secondsPerDay < hh * 3600 + mm * 60 →
        r / secondsPerDay = env.now / secondsPerDay) ∧
      (hh * 3600 + mm * 60 ≤ env.now % secondsPerDay →
        r / secondsPerDay = env.now / secondsPerDay + 1) ∧
      env.now < r := by
  have hpw : parse_when env text =
      fallback_from_match env (tokenOf (lowerData text) i j) := by
    simp [parse_when, h1, h2]
  rw [hpw]
  unfold fallback_from_match
  rw [h3]
  simp only [replaceTime, secondsPerDay]
  by_cases hle : (env.now / 86400) * 86400 + hh * 3600 + mm * 60 ≤ env.now
  · refine ⟨env.now / 86400 * 86400 + hh * 3600 + mm * 60 + 86400,
      by rw [if_pos (by omega)], ?_, ?_, ?_, ?_⟩ <;> omega
  · refine ⟨env.now / 86400 * 86400 + hh * 3600 + mm * 60,
      by rw [if_neg (by omega)], ?_, ?_, ?_, ?_⟩ <;> omega

/-- C5 witness: a concrete text whose only time content is the token `5pm`. -/
theorem extractor_fallback_future_witness :
    ∃ r, parse_when sampleEnv "see you at 5pm" = some r ∧
      r % secondsPerDay = 17 * 3600 + 0 * 60 ∧
      (sampleEnv.now % secondsPerDay < 17 * 3600 + 0 * 60 →
        r / secondsPerDay = sampleEnv.now / secondsPerDay) ∧
      (17 * 3600 + 0 * 60 ≤ sampleEnv.now % secondsPerDay →
        r / secondsPerDay = sampleEnv.now / secondsPerDay + 1) ∧
      sampleEnv.now < r :=
  extractor_fallback_future sampleEnv "see you at 5pm" 11 14 17 0 rfl
    (by decide) (by decide) (by decide) (by decide)

/-- C10: the classifier's clock-time check and the extractor's fallback scan
are the same search of the same pattern over the same lowered text; hence
when the full parse yields nothing and the time check succeeded, the
extractor proceeds to time-of-day parsing of the matched token instead of
returning `none` at the scan. -/
theorem classifier_extractor_time_agreement (text : String) :
    has_time_token (lowerData text) = (timeSearch (lowerData text)).isSome ∧
    (∀ env : Env, env.fullParse text = none →
      has_time_token (lowerData text) = true →
      ∃ i j, timeSearch (lowerData text) = some (i, j) ∧
        parse_when env text = fallback_from_match env (tokenOf (lowerData text) i j)) := by
  refine ⟨rfl, ?_⟩
  intro env h1 h2
  rcases hS : timeSearch (lowerData text) with _ | ⟨i, j⟩
  · rw [has_time_token, hS] at h2
    simp at h2
  · exact ⟨i, j, rfl, by simp [parse_when, h1, hS]⟩

/-- C10 witness: a concrete text accepted on the strength of its time token. -/
theorem classifier_extractor_time_agreement_witness :
    has_time_token (lowerData "study at 4pm") =
      (timeSearch (lowerData "study at 4pm")).isSome ∧
    (∃ i j, timeSearch (lowerData "study at 4pm") = some (i, j) ∧
      parse_when sampleEnv "study at 4pm" =
        fallback_from_match sampleEnv (tokenOf (lowerData "study at 4pm") i j)) :=
  ⟨(classifier_extractor_time_agreement "study at 4pm").1,
   (classifier_extractor_time_agreement "study at 4pm").2 sampleEnv rfl (by decide)⟩

end StudyBot
